import Mathlib

/-!
Verification of the parts-catalog-3d repository.

Shallow embedding of the repository's two source files:

* the Node.js static file responder (`server.js`, given as an unnamed part),
  modelled in namespace `StaticServer`;
* the browser viewer `script.js`, which contains two concatenated versions of
  the `ModelViewer` class.  The first version (lines 1–1677) is modelled in
  namespace `MV1`, the second (lines 1680–end) in namespace `MV2`.

Machine reals (JS `number`) are modelled by `ℚ`; the external `Math.tan`
function and the `Math.PI` constant are passed as explicit parameters where
the code calls them.  File system reads, GLTF loading and raycasting are
modelled as explicit oracles (functions passed to the embedded handlers),
matching the asynchronous callbacks of the source.
-/

namespace StaticServer

/-- Result of `fs.readFile`: either the file's bytes or an error with a
Node.js error `code` string (e.g. `"ENOENT"`). -/
inductive ReadResult where
  | ok (content : List Nat)
  | err (code : String)
deriving DecidableEq, Repr

/-- Body of an HTTP response: raw file bytes on success, a text message on
error (the server never sends file bytes together with an error status). -/
inductive Body where
  | bytes (content : List Nat)
  | text (s : String)
deriving DecidableEq, Repr

/-- An HTTP response as produced by `res.writeHead` + `res.end`:
status code, the headers passed to `writeHead`, and the body. -/
structure Response where
  status : Nat
  headers : List (String × String)
  body : Body
deriving DecidableEq, Repr

/-- Index of the last occurrence of `c` in `l`, if any. -/
def lastIdxOf (c : Char) : List Char → Option Nat
  | [] => none
  | a :: rest =>
    match lastIdxOf c rest with
    | some i => some (i + 1)
    | none => if a = c then some 0 else none

/-- The basename portion of a path: the characters after the last slash. -/
def basenameChars (l : List Char) : List Char :=
  match lastIdxOf '/' l with
  | some i => l.drop (i + 1)
  | none => l

/-- Model of Node's `path.extname`: the extension from the last `.` in the
last portion of the path to the end of the string; empty when the last
portion has no `.`, when its only `.` is its first character (dotfiles), or
for the special name `..`. -/
def extname (p : String) : String :=
  let b := basenameChars p.data
  if b = ['.', '.'] then ""
  else
    match lastIdxOf '.' b with
    | none => ""
    | some 0 => ""
    | some i => ⟨b.drop i⟩

/-- The `mimeTypes` object of the request handler. -/
def mimeTypes : List (String × String) :=
  [ (".html", "text/html"),
    (".js", "text/javascript"),
    (".css", "text/css"),
    (".json", "application/json"),
    (".png", "image/png"),
    (".jpg", "image/jpg"),
    (".gif", "image/gif"),
    (".glb", "model/gltf-binary"),
    (".gltf", "model/gltf+json") ]

/-- `mimeTypes[extname] || 'application/octet-stream'` (all mapped values are
truthy, so `||` reduces to a lookup with a default). -/
def lookupMime (ext : String) : String :=
  match mimeTypes.lookup ext with
  | some t => t
  | none => "application/octet-stream"

/-- `let filePath = '.' + req.url; if (filePath === './') filePath = './index.html';` -/
def resolvePath (url : String) : String :=
  let filePath := "." ++ url
  if filePath = "./" then "./index.html" else filePath

/-- The request handler: resolves the file path, computes the content type
from the resolved path's extension, reads the file through the `fsRead`
oracle and builds the response exactly as the `fs.readFile` callback does. -/
def handleRequest (url : String) (fsRead : String → ReadResult) : Response :=
  let filePath := resolvePath url
  let contentType := lookupMime (extname filePath)
  match fsRead filePath with
  | .err code =>
    if code = "ENOENT" then
      { status := 404, headers := [], body := .text "Файл не найден" }
    else
      { status := 500, headers := [], body := .text ("Ошибка сервера: " ++ code) }
  | .ok content =>
    { status := 200,
      headers := [ ("Content-Type", contentType),
                   ("Access-Control-Allow-Origin", "*"),
                   ("Cache-Control", "no-cache, no-store, must-revalidate") ],
      body := .bytes content }

end StaticServer

namespace Viewer

/-- A JS number triple (`THREE.Vector3`); machine floats modelled by `ℚ`. -/
structure Vec3 where
  x : ℚ
  y : ℚ
  z : ℚ
deriving DecidableEq, Repr

instance : Add Vec3 := ⟨fun a b => ⟨a.x + b.x, a.y + b.y, a.z + b.z⟩⟩

instance : Sub Vec3 := ⟨fun a b => ⟨a.x - b.x, a.y - b.y, a.z - b.z⟩⟩

instance : Zero Vec3 := ⟨⟨0, 0, 0⟩⟩

/-- Componentwise minimum (`Vector3.min`). -/
def vmin (a b : Vec3) : Vec3 := ⟨min a.x b.x, min a.y b.y, min a.z b.z⟩

/-- Componentwise maximum (`Vector3.max`). -/
def vmax (a b : Vec3) : Vec3 := ⟨max a.x b.x, max a.y b.y, max a.z b.z⟩

/-- An axis-aligned bounding box (`THREE.Box3`). -/
structure Box3 where
  lo : Vec3
  hi : Vec3
deriving DecidableEq, Repr

/-- `Box3.getCenter`: the midpoint of the box. (For the empty box THREE
returns the zero vector; our `box3FromPoints` encodes the empty box as the
degenerate zero box, whose midpoint is likewise zero.) -/
def Box3.getCenter (b : Box3) : Vec3 :=
  ⟨(b.lo.x + b.hi.x) / 2, (b.lo.y + b.hi.y) / 2, (b.lo.z + b.hi.z) / 2⟩

/-- `Box3.getSize`: the extent of the box in each axis. -/
def Box3.getSize (b : Box3) : Vec3 := b.hi - b.lo

/-- `Box3.setFromObject` on an object whose world-space vertex positions are
`pts`: expand an empty box by every point. -/
def box3FromPoints : List Vec3 → Box3
  | [] => ⟨0, 0⟩
  | p :: ps => ps.foldl (fun b q => ⟨vmin b.lo q, vmax b.hi q⟩) ⟨p, p⟩

/-- The `userData` fields the viewer writes on every collected part.
(`originalMaterial`, a reference to the part's material object, is kept by
the code only to restore highlighting and is not observed by any claim.) -/
structure UserData where
  objectName : String
  isPart : Bool
  partId : Nat
deriving DecidableEq, Repr

/-- A node visited by `Object3D.traverse` on the loaded scene: its `isMesh`
flag, its `name`, and `geometry.boundingSphere.radius` when the node has a
geometry with a computed bounding sphere. -/
structure SceneNode where
  isMesh : Bool
  name : String
  boundingSphereRadius : Option ℚ
deriving DecidableEq, Repr

/-- The geometry attached to a part mesh: a `THREE.BoxGeometry` with given
dimensions (the generated fallback parts) or a geometry imported with the
loaded scene file. -/
inductive PartGeometry where
  | box (size : Vec3)
  | fromScene
deriving DecidableEq, Repr

/-- A part object as seen by the selection logic: its `name`, its `visible`
flag, its geometry and its `userData`. -/
structure Obj where
  name : String
  visible : Bool
  geometry : PartGeometry
  userData : UserData
deriving DecidableEq, Repr

/-- A loaded model (`gltf.scene`): its scene-graph `position` offset, the
local-space vertex positions of all its geometry, and its name. -/
structure Model where
  position : Vec3
  geometry : List Vec3
  name : String
deriving DecidableEq, Repr

/-- The world-space vertex positions of a model: local geometry translated
by the model's position. -/
def Model.worldPoints (m : Model) : List Vec3 :=
  m.geometry.map (fun p => p + m.position)

/-- `new THREE.Box3().setFromObject(model)`. -/
def box3SetFromObject (m : Model) : Box3 :=
  box3FromPoints m.worldPoints

/-- The camera state touched by `fitCameraToAssembly`: its `fov` (degrees),
its `position`, and the last point passed to `lookAt`. -/
structure Camera where
  fov : ℚ
  position : Vec3
  lookTarget : Vec3
deriving DecidableEq, Repr

/-- The orbit-controls state touched by `fitCameraToAssembly`. -/
structure Controls where
  target : Vec3
deriving DecidableEq, Repr

/-- The viewer state read and written by `fitCameraToAssembly`. -/
structure ViewerState where
  currentModel : Option Model
  camera : Camera
  controls : Controls
deriving DecidableEq, Repr

end Viewer

namespace MV1

open Viewer

/-- Accumulator of the mesh-collection `traverse` callback in the first
`loadAssembly`: the running mesh counter and the `allParts` / `objects`
arrays it pushes to. -/
structure TraverseState where
  meshCount : Nat
  allParts : List Obj
  objects : List Obj
deriving DecidableEq, Repr

/-- One step of the `traverse` callback (script.js lines 239–266): count the
mesh, skip it when its bounding-sphere radius is below 0.01, otherwise tag
its `userData` and push it onto both `allParts` and `objects`. -/
def traverseChild (s : TraverseState) (child : SceneNode) : TraverseState :=
  if child.isMesh then
    let meshCount := s.meshCount + 1
    let skip :=
      match child.boundingSphereRadius with
      | some r => decide (r < 1/100)
      | none => false
    if skip then { s with meshCount := meshCount }
    else
      let ud : UserData :=
        { objectName := if child.name = "" then "Деталь_" ++ toString meshCount else child.name,
          isPart := true,
          partId := s.allParts.length }
      let mesh : Obj :=
        { name := child.name, visible := true, geometry := .fromScene, userData := ud }
      { meshCount := meshCount,
        allParts := s.allParts ++ [mesh],
        objects := s.objects ++ [mesh] }
  else s

/-- `this.currentModel.traverse(child => ...)` over the scene's nodes. -/
def collectParts (nodes : List SceneNode) : TraverseState :=
  nodes.foldl traverseChild ⟨0, [], []⟩

/-- One entry of the hardcoded `parts` array of `createFallbackAssembly`:
name, material color, mesh position and `BoxGeometry` dimensions. -/
structure FallbackSpec where
  name : String
  color : Nat
  position : Vec3
  size : Vec3
deriving DecidableEq, Repr

/-- The hardcoded test parts of the first `createFallbackAssembly`
(script.js lines 470–475). -/
def fallbackPartsData : List FallbackSpec :=
  [ { name := "Корпус", color := 0x3498db, position := ⟨0, 0, 0⟩, size := ⟨3, 2, 1⟩ },
    { name := "Крышка", color := 0x2ecc71, position := ⟨0, 1.5, 0⟩, size := ⟨2.8, 0.3, 0.9⟩ },
    { name := "Болт М8", color := 0xe74c3c, position := ⟨1, 0.5, 0.4⟩, size := ⟨0.2, 1, 0.2⟩ },
    { name := "Шестерня", color := 0xf39c12, position := ⟨-1, 0, 0⟩, size := ⟨1, 0.3, 1⟩ },
    { name := "Подшипник", color := 0x9b59b6, position := ⟨0.5, -0.5, 0⟩, size := ⟨0.8, 0.8, 0.3⟩ },
    { name := "Вал", color := 0x1abc9c, position := ⟨-0.5, -0.5, 0⟩, size := ⟨0.3, 2, 0.3⟩ } ]

/-- The box mesh built for fallback part `d` at forEach index `i`
(each fallback part is a `THREE.Mesh` over a `BoxGeometry`). -/
def mkFallbackPart (i : Nat) (d : FallbackSpec) : Obj :=
  { name := d.name,
    visible := true,
    geometry := .box d.size,
    userData := { objectName := d.name, isPart := true, partId := i } }

/-- `createFallbackAssembly` (first class, script.js lines 448–514): builds
one box mesh per hardcoded entry, pushing each onto both `allParts` and
`objects`; `partId` is the forEach index. -/
def createFallbackAssembly : TraverseState :=
  let parts := fallbackPartsData.mapIdx mkFallbackPart
  { meshCount := 0, allParts := parts, objects := parts }

/-- Outcome of processing a successfully fetched scene file in the first
`loadAssembly`. -/
structure LoadResult where
  allParts : List Obj
  objects : List Obj
  usedFallback : Bool
deriving DecidableEq, Repr

/-- The part-collection stage of the first `loadAssembly` (script.js lines
234–274): traverse the scene's nodes; if no part was collected, call
`createFallbackAssembly` and return. -/
def processLoadedScene (nodes : List SceneNode) : LoadResult :=
  let st := collectParts nodes
  if st.allParts.length = 0 then
    let fb := createFallbackAssembly
    { allParts := fb.allParts, objects := fb.objects, usedFallback := true }
  else
    { allParts := st.allParts, objects := st.objects, usedFallback := false }

/-- The part-count label written by `updatePartsList`: the zero-parts branch
writes the literal string, the normal branch interpolates the length. -/
def updatePartsListCountText (allParts : List Obj) : String :=
  if allParts.length = 0 then "Деталей: 0"
  else "Деталей: " ++ toString allParts.length

/-- The assembly-centering step of the first `loadAssembly` (script.js lines
278–287): subtract the bounding-box center from the model's position,
component by component. -/
def centerAssembly (m : Model) : Model :=
  let box := box3SetFromObject m
  let center := box.getCenter
  { m with position := ⟨m.position.x - center.x, m.position.y - center.y, m.position.z - center.z⟩ }

/-- `fitCameraToAssembly` (script.js lines 388–404), with `Math.tan` and
`Math.PI` passed as the oracle `tan` and the constant `pi`: no-op without a
model; otherwise place the camera at `(z, 0.7·z, z)` for
`z = 1.8·|maxDim/2 / tan(fov/2)|`, look at the box center and move the
orbit-controls target there. -/
def fitCameraToAssembly (tan : ℚ → ℚ) (pi : ℚ) (s : ViewerState) : ViewerState :=
  match s.currentModel with
  | none => s
  | some m =>
    let box := box3SetFromObject m
    let size := box.getSize
    let center := box.getCenter
    let maxDim := max size.x (max size.y size.z)
    let fov := s.camera.fov * (pi / 180)
    let cameraZ := |maxDim / 2 / tan (fov / 2)| * 1.8
    { s with
      camera := { s.camera with
                    position := ⟨cameraZ, cameraZ * 0.7, cameraZ⟩,
                    lookTarget := center },
      controls := { s.controls with target := center } }

/-- `resetCamera` refits the camera to the assembly (and shows a
notification, not modelled). -/
def resetCamera (tan : ℚ → ℚ) (pi : ℚ) (s : ViewerState) : ViewerState :=
  fitCameraToAssembly tan pi s

/-- The selection-related UI state touched by `handleSelection`:
`this.selectedObject` and whether the selection popup is displayed. -/
structure SelectionState where
  selectedObject : Option Obj
  popupVisible : Bool
deriving DecidableEq, Repr

/-- Hits ordered by ascending distance, as `Raycaster.intersectObjects`
returns them. -/
def distLE (a b : Obj × ℚ) : Prop := a.2 ≤ b.2

instance : DecidableRel distLE := fun a b => inferInstanceAs (Decidable (a.2 ≤ b.2))

instance : IsTotal (Obj × ℚ) distLE := ⟨fun a b => le_total a.2 b.2⟩

instance : IsTrans (Obj × ℚ) distLE := ⟨fun _ _ _ h1 h2 => le_trans h1 h2⟩

/-- Model of `raycaster.intersectObjects(objs)`: the ray through the current
pointer position is abstracted by the oracle `hit`, which gives the distance
at which the ray meets each object (or `none` for a miss); the result is the
hit objects sorted by ascending distance. -/
def intersectObjects (hit : Obj → Option ℚ) (objs : List Obj) : List (Obj × ℚ) :=
  List.insertionSort distLE (objs.filterMap (fun o => (hit o).map (fun d => (o, d))))

/-- `handleSelection` (script.js lines 811–839): intersect the ray with the
visible registered objects; select the first (nearest) hit when it is
flagged as a part (via `selectObject`, which also shows the popup); with no
hit, hide the popup and clear the selection. -/
def handleSelection (hit : Obj → Option ℚ) (objects : List Obj)
    (s : SelectionState) : SelectionState :=
  let visibleObjects := objects.filter (fun o => o.visible)
  let intersects := intersectObjects hit visibleObjects
  match intersects with
  | [] => { s with popupVisible := false, selectedObject := none }
  | (o, _) :: _ =>
    if o.userData.isPart then { selectedObject := some o, popupVisible := true }
    else s

/-- One touch point of a touch event. -/
structure TouchPoint where
  clientX : ℚ
  clientY : ℚ
deriving DecidableEq, Repr

/-- The touch-gesture state of the viewer: the recorded touch-start
coordinates, the time of the previous touch-end, and whether the long-press
timeout scheduled by `handleTouchStart` is still pending. -/
structure TouchState where
  touchStartX : ℚ
  touchStartY : ℚ
  lastTouchTime : ℚ
  touchTimeoutPending : Bool
deriving DecidableEq, Repr

/-- `handleTouchStart` (script.js lines 842–854): with exactly one touch,
record its coordinates and schedule the long-press timeout; the returned
option is the scheduled delay in milliseconds. -/
def handleTouchStart (touches : List TouchPoint) (s : TouchState) :
    TouchState × Option ℚ :=
  match touches with
  | [t] =>
    ({ s with touchStartX := t.clientX, touchStartY := t.clientY,
              touchTimeoutPending := true },
     some 500)
  | _ => (s, none)

/-- The body of the long-press timeout: it shows the context menu exactly
when a part is currently selected (`if (this.selectedObject) ...`). -/
def touchTimeoutBody (selectedObject : Option Obj) : Bool :=
  selectedObject.isSome

/-- What `handleTouchEnd` does besides updating state: whether it forwarded
the event to `handleSelection` (an accepted tap) and whether it called
`resetCamera` (a double-tap). -/
structure TouchEndResult where
  state : TouchState
  tapSelection : Bool
  cameraReset : Bool
deriving DecidableEq, Repr

/-- `handleTouchEnd` (script.js lines 856–878): cancel the pending
long-press timeout; with exactly one changed touch that moved less than 10
pixels in both axes, run selection; when this touch-end comes less than
300 ms after the previous one, reset the camera; finally record this
touch-end's time. -/
def handleTouchEnd (changedTouches : List TouchPoint) (now : ℚ)
    (s : TouchState) : TouchEndResult :=
  let s1 := { s with touchTimeoutPending := false }
  let tap :=
    match changedTouches with
    | [t] =>
      decide (|t.clientX - s1.touchStartX| < 10) &&
        decide (|t.clientY - s1.touchStartY| < 10)
    | _ => false
  let dbl := decide (now - s1.lastTouchTime < 300)
  { state := { s1 with lastTouchTime := now },
    tapSelection := tap,
    cameraReset := dbl }

end MV1

namespace MV2

open Viewer

/-- JS `String.prototype.includes`: does `pat` occur as a contiguous run
inside `hay`? -/
def strIncludes (hay pat : List Char) : Bool :=
  match hay with
  | [] => pat.isEmpty
  | _ :: t => pat.isPrefixOf hay || strIncludes t pat

/-- JS `String.prototype.split` with a one-character separator. -/
def jsSplit (sep : Char) : List Char → List (List Char)
  | [] => [[]]
  | c :: cs =>
    let r := jsSplit sep cs
    if c = sep then [] :: r
    else
      match r with
      | h :: t => (c :: h) :: t
      | [] => [[c]]

/-- JS `Array.prototype.join` with a one-character separator. -/
def joinChar (sep : Char) : List (List Char) → List Char
  | [] => []
  | [l] => l
  | l :: rest => l ++ sep :: joinChar sep rest

/-- `window.location.pathname.split('/').slice(0, -1).join('/')`: the
pathname with its last `/`-separated segment removed. -/
def dirOfPathname (pathname : String) : String :=
  ⟨joinChar '/' ((jsSplit '/' pathname.data).dropLast)⟩

/-- The `possiblePaths` array of the second `loadAssembly` (script.js lines
1799–1803): two relative candidates plus one whose base is the pathname's
directory on github.io pages and empty otherwise. -/
def possiblePaths (assemblyName : String) (pathname : String) : List String :=
  [ "models/" ++ assemblyName ++ ".glb",
    "./models/" ++ assemblyName ++ ".glb",
    (if strIncludes pathname.data "github.io".data then dirOfPathname pathname
     else "") ++ "/models/" ++ assemblyName ++ ".glb" ]

/-- A loaded scene file (the part of `gltf` the handler reads). -/
structure GltfScene where
  nodes : List SceneNode
deriving DecidableEq, Repr

/-- The candidate-path loop of the second `loadAssembly` (script.js lines
1809–1820): try `loader.loadAsync` (the oracle `load`) on each path in
order, stopping at the first success; also return the list of paths
attempted, in order. -/
def tryLoadPaths (load : String → Option GltfScene) :
    List String → Option GltfScene × List String
  | [] => (none, [])
  | p :: rest =>
    match load p with
    | some g => (some g, [p])
    | none =>
      let (r, att) := tryLoadPaths load rest
      (r, p :: att)

/-- The `traverse` callback of the second `loadAssembly` (script.js lines
1833–1849): no bounding-sphere skip; the default name interpolates the
current `allParts.length`. -/
def traverseChild (acc : List Obj) (child : SceneNode) : List Obj :=
  if child.isMesh then
    let ud : UserData :=
      { objectName := if child.name = "" then "Деталь_" ++ toString acc.length else child.name,
        isPart := true,
        partId := acc.length }
    acc ++ [{ name := child.name, visible := true, geometry := .fromScene, userData := ud }]
  else acc

/-- Collect the parts of a loaded scene (second class). -/
def collectParts (scene : GltfScene) : List Obj :=
  scene.nodes.foldl traverseChild []

/-- The hardcoded test parts of the second `createFallbackAssembly`
(script.js lines 1973–1976). -/
def fallbackPartsData : List MV1.FallbackSpec :=
  [ { name := "Корпус", color := 0x3498db, position := ⟨0, 0, 0⟩, size := ⟨3, 2, 1⟩ },
    { name := "Крышка", color := 0x2ecc71, position := ⟨0, 1.5, 0⟩, size := ⟨2.8, 0.3, 0.9⟩ },
    { name := "Болт М8", color := 0xe74c3c, position := ⟨1, 0.5, 0.4⟩, size := ⟨0.2, 1, 0.2⟩ },
    { name := "Шестерня", color := 0xf39c12, position := ⟨-1, 0, 0⟩, size := ⟨1, 0.3, 1⟩ } ]

/-- `createFallbackAssembly` (second class, script.js lines 1964–2011):
one box mesh per hardcoded entry, `partId` equal to the forEach index. -/
def createFallbackAssembly : List Obj :=
  fallbackPartsData.mapIdx MV1.mkFallbackPart

/-- Observable outcome of the second `loadAssembly`. -/
structure LoadOutcome where
  allParts : List Obj
  usedFallback : Bool
  errorShown : Bool
  attemptedPaths : List String
deriving DecidableEq, Repr

/-- The second `loadAssembly` (script.js lines 1779–1901), with
`GLTFLoader.loadAsync` as the oracle `load`: try every candidate path in
order; on the first success collect the scene's parts; when every path
fails, render the error message into the loading indicator and substitute
the fallback assembly. -/
def loadAssembly (load : String → Option GltfScene) (pathname : String)
    (assemblyName : String) : LoadOutcome :=
  let paths := possiblePaths assemblyName pathname
  match tryLoadPaths load paths with
  | (some scene, att) =>
    { allParts := collectParts scene,
      usedFallback := false,
      errorShown := false,
      attemptedPaths := att }
  | (none, att) =>
    { allParts := createFallbackAssembly,
      usedFallback := true,
      errorShown := true,
      attemptedPaths := att }

end MV2

section ServerTheorems

open StaticServer

/-- C1 (amended): for every GET request whose target file is read
successfully, the responder returns status 200 with the file bytes, a
Content-Type determined solely by the *resolved file path's* extension
(`'.' + url`, with `/` resolved to `./index.html`) through the fixed mapping
with default `application/octet-stream`, an `Access-Control-Allow-Origin: *`
header and a `Cache-Control: no-cache, no-store, must-revalidate` header. -/
theorem c1_success_response (url : String) (fsRead : String → ReadResult)
    (content : List Nat)
    (h : fsRead (resolvePath url) = .ok content) :
    handleRequest url fsRead =
      { status := 200,
        headers :=
          [ ("Content-Type", lookupMime (extname (resolvePath url))),
            ("Access-Control-Allow-Origin", "*"),
            ("Cache-Control", "no-cache, no-store, must-revalidate") ],
        body := .bytes content } := by
  simp only [handleRequest]
  rw [h]

/-- C1, witness: a successful read of `/script.js` yields the 200 response
with Content-Type `text/javascript` and both extra headers. -/
theorem c1_success_response_witness :
    ((fun p => if p = "./script.js" then ReadResult.ok [42] else ReadResult.err "ENOENT")
        (resolvePath "/script.js") = ReadResult.ok [42])
    ∧ handleRequest "/script.js"
        (fun p => if p = "./script.js" then ReadResult.ok [42] else ReadResult.err "ENOENT") =
      { status := 200,
        headers :=
          [ ("Content-Type", "text/javascript"),
            ("Access-Control-Allow-Origin", "*"),
            ("Cache-Control", "no-cache, no-store, must-revalidate") ],
        body := .bytes [42] } :=
  ⟨by decide,
   by rw [c1_success_response "/script.js" _ [42] (by decide)]; rfl⟩

/-- C1, counterexample to the claim as stated: for the request path `/` the
file read succeeds, yet the response's Content-Type is `text/html` while the
fixed mapping applied to the *request path's* extension (`extname "/" = ""`)
yields `application/octet-stream`. -/
theorem c1_counterexample :
    (handleRequest "/" (fun _ => ReadResult.ok [60])).headers.lookup "Content-Type" =
        some "text/html"
    ∧ lookupMime (extname "/") = "application/octet-stream"
    ∧ ("text/html" : String) ≠ "application/octet-stream" :=
  ⟨rfl, rfl, by decide⟩

/-- C2: when the file read fails, the responder returns 404 exactly when the
error code is `ENOENT` and 500 otherwise, and in both cases the body is a
text message, never the file bytes. -/
theorem c2_error_response (url : String) (fsRead : String → ReadResult)
    (code : String)
    (h : fsRead (resolvePath url) = .err code) :
    ((handleRequest url fsRead).status = if code = "ENOENT" then 404 else 500)
    ∧ ((handleRequest url fsRead).status = 404 ↔ code = "ENOENT")
    ∧ (∀ b, (handleRequest url fsRead).body ≠ Body.bytes b) := by
  simp only [handleRequest]
  rw [h]
  by_cases hc : code = "ENOENT" <;> simp [hc]

/-- C2, witness: a permission error on `/data.json` yields status 500 (and
404 would require `ENOENT`). -/
theorem c2_error_response_witness :
    ((fun _ => ReadResult.err "EACCES") (resolvePath "/data.json") =
        ReadResult.err "EACCES")
    ∧ (handleRequest "/data.json" (fun _ => ReadResult.err "EACCES")).status =
        (if ("EACCES" : String) = "ENOENT" then 404 else 500) :=
  ⟨by decide, (c2_error_response "/data.json" _ "EACCES" (by decide)).1⟩

/-- C10: a GET for the exact path `/` is served from `./index.html` (status
200 and Content-Type `text/html` when that file is readable), and every
other request path resolves to `'.' + url`. -/
theorem c10_root_path (fsRead : String → ReadResult) (content : List Nat)
    (h : fsRead "./index.html" = .ok content) :
    resolvePath "/" = "./index.html"
    ∧ (∀ url : String, url ≠ "/" → resolvePath url = "." ++ url)
    ∧ (handleRequest "/" fsRead).status = 200
    ∧ (handleRequest "/" fsRead).headers.lookup "Content-Type" = some "text/html"
    ∧ (handleRequest "/" fsRead).body = .bytes content := by
  refine ⟨rfl, ?_, ?_⟩
  · intro url hne
    have hne2 : "." ++ url ≠ "./" := by
      intro heq
      apply hne
      have hd := congrArg String.data heq
      rw [String.data_append] at hd
      have h1 : ("." : String).data = ['.'] := rfl
      have h2 : ("./" : String).data = ['.', '/'] := rfl
      rw [h1, h2] at hd
      have hu : url.data = ['/'] := by simpa using hd
      exact String.ext (by rw [hu])
    simp only [resolvePath, if_neg hne2]
  · have := c1_success_response "/" fsRead content h
    rw [this]
    exact ⟨rfl, rfl, rfl⟩

/-- C10, witness: with `./index.html` readable, the root request returns 200,
`text/html`, and the file's bytes. -/
theorem c10_root_path_witness :
    ((fun p => if p = "./index.html" then ReadResult.ok [104] else ReadResult.err "ENOENT")
        "./index.html" = ReadResult.ok [104])
    ∧ (handleRequest "/"
        (fun p => if p = "./index.html" then ReadResult.ok [104] else ReadResult.err "ENOENT")).status = 200 :=
  ⟨by decide,
   (c10_root_path _ [104] (by decide)).2.2.1⟩

end ServerTheorems

section GeometryLemmas

open Viewer

theorem Vec3.add_def (a b : Vec3) :
    a + b = ⟨a.x + b.x, a.y + b.y, a.z + b.z⟩ := rfl

theorem Vec3.sub_def (a b : Vec3) :
    a - b = ⟨a.x - b.x, a.y - b.y, a.z - b.z⟩ := rfl

theorem Vec3.zero_def : (0 : Vec3) = ⟨0, 0, 0⟩ := rfl

theorem vmin_add_right (a b t : Vec3) : vmin (a + t) (b + t) = vmin a b + t := by
  simp [vmin, Vec3.add_def, min_add_add_right]

theorem vmax_add_right (a b t : Vec3) : vmax (a + t) (b + t) = vmax a b + t := by
  simp [vmax, Vec3.add_def, max_add_add_right]

/-- Expanding a translated box by translated points is translating the
expanded box. -/
theorem foldl_box_translate (l : List Vec3) (b : Box3) (t : Vec3) :
    (l.map (fun p => p + t)).foldl
        (fun (b : Box3) (q : Vec3) => Box3.mk (vmin b.lo q) (vmax b.hi q))
        (Box3.mk (b.lo + t) (b.hi + t)) =
      Box3.mk
        ((l.foldl (fun (b : Box3) (q : Vec3) => Box3.mk (vmin b.lo q) (vmax b.hi q)) b).lo + t)
        ((l.foldl (fun (b : Box3) (q : Vec3) => Box3.mk (vmin b.lo q) (vmax b.hi q)) b).hi + t) := by
  induction l generalizing b with
  | nil => rfl
  | cons a l ih =>
    simp only [List.map_cons, List.foldl_cons]
    rw [show Box3.mk (vmin (b.lo + t) (a + t)) (vmax (b.hi + t) (a + t)) =
          Box3.mk ((vmin b.lo a) + t) ((vmax b.hi a) + t) by
        rw [vmin_add_right, vmax_add_right]]
    exact ih (Box3.mk (vmin b.lo a) (vmax b.hi a))

/-- The bounding box of a translated nonempty point set is the translated
bounding box. -/
theorem box3FromPoints_translate (l : List Vec3) (t : Vec3) (h : l ≠ []) :
    box3FromPoints (l.map (fun p => p + t)) =
      ⟨(box3FromPoints l).lo + t, (box3FromPoints l).hi + t⟩ := by
  cases l with
  | nil => exact absurd rfl h
  | cons p ps =>
    simp only [box3FromPoints, List.map_cons]
    exact foldl_box_translate ps ⟨p, p⟩ t

/-- The midpoint of a translated box is the translated midpoint. -/
theorem getCenter_translate (b : Box3) (t : Vec3) :
    (⟨b.lo + t, b.hi + t⟩ : Box3).getCenter = b.getCenter + t := by
  simp only [Box3.getCenter, Vec3.add_def, Vec3.mk.injEq]
  refine ⟨by ring, by ring, by ring⟩

end GeometryLemmas

section CenteringTheorems

open Viewer MV1

/-- C5: after a successful load, the model's position is translated by the
negative of its bounding-box center in each axis, after which the bounding
box is centered at the origin; geometry and name are untouched. -/
theorem c5_centering (m : Model) (h : m.geometry ≠ []) :
    (centerAssembly m).position = m.position - (box3SetFromObject m).getCenter
    ∧ (box3SetFromObject (centerAssembly m)).getCenter = 0
    ∧ (centerAssembly m).geometry = m.geometry
    ∧ (centerAssembly m).name = m.name := by
  refine ⟨rfl, ?_, rfl, rfl⟩
  have hne : m.geometry ≠ [] := h
  have hworld : ∀ (q : Vec3),
      box3FromPoints (m.geometry.map (fun p => p + q)) =
        Box3.mk ((box3FromPoints m.geometry).lo + q)
                ((box3FromPoints m.geometry).hi + q) :=
    fun q => box3FromPoints_translate m.geometry q hne
  have hcenter : ∀ (q : Vec3),
      (box3FromPoints (m.geometry.map (fun p => p + q))).getCenter =
        (box3FromPoints m.geometry).getCenter + q := by
    intro q
    rw [hworld q, getCenter_translate]
  have h1 : (box3SetFromObject m).getCenter =
      (box3FromPoints m.geometry).getCenter + m.position := by
    simpa [box3SetFromObject, Model.worldPoints] using hcenter m.position
  have h2 : (box3SetFromObject (centerAssembly m)).getCenter =
      (box3FromPoints m.geometry).getCenter + (centerAssembly m).position := by
    simpa [box3SetFromObject, Model.worldPoints] using
      hcenter (centerAssembly m).position
  rw [h2]
  show (box3FromPoints m.geometry).getCenter +
      (Vec3.mk (m.position.x - (box3SetFromObject m).getCenter.x)
               (m.position.y - (box3SetFromObject m).getCenter.y)
               (m.position.z - (box3SetFromObject m).getCenter.z)) = 0
  rw [h1]
  simp only [Vec3.add_def, Vec3.zero_def, Vec3.mk.injEq]
  refine ⟨by ring, by ring, by ring⟩

/-- C5, witness: a one-box model at position (1,1,1) with vertices (0,0,0)
and (2,4,6) ends up with its bounding box centered at the origin. -/
theorem c5_centering_witness :
    ((⟨⟨1, 1, 1⟩, [⟨0, 0, 0⟩, ⟨2, 4, 6⟩], "assembly"⟩ : Model).geometry ≠ [])
    ∧ (box3SetFromObject
        (centerAssembly ⟨⟨1, 1, 1⟩, [⟨0, 0, 0⟩, ⟨2, 4, 6⟩], "assembly"⟩)).getCenter = 0 :=
  ⟨by decide,
   (c5_centering ⟨⟨1, 1, 1⟩, [⟨0, 0, 0⟩, ⟨2, 4, 6⟩], "assembly"⟩ (by decide)).2.1⟩

/-- C6: with a model loaded, `fitCameraToAssembly` puts the camera at
`(d, 0.7·d, d)` for `d = 1.8·|maxDim/2 / tan(fov·π/180 / 2)|` (`maxDim`
the largest bounding-box extent), aims the camera and the orbit-controls
target at the bounding-box center, and does nothing without a model. -/
theorem c6_camera_fit (tan : ℚ → ℚ) (pi : ℚ) (s : ViewerState) :
    (∀ m, s.currentModel = some m →
      (fitCameraToAssembly tan pi s).camera.position =
        ⟨1.8 * |max (box3SetFromObject m).getSize.x
            (max (box3SetFromObject m).getSize.y (box3SetFromObject m).getSize.z) / 2 /
              tan (s.camera.fov * (pi / 180) / 2)|,
         0.7 * (1.8 * |max (box3SetFromObject m).getSize.x
            (max (box3SetFromObject m).getSize.y (box3SetFromObject m).getSize.z) / 2 /
              tan (s.camera.fov * (pi / 180) / 2)|),
         1.8 * |max (box3SetFromObject m).getSize.x
            (max (box3SetFromObject m).getSize.y (box3SetFromObject m).getSize.z) / 2 /
              tan (s.camera.fov * (pi / 180) / 2)|⟩
      ∧ (fitCameraToAssembly tan pi s).camera.lookTarget =
          (box3SetFromObject m).getCenter
      ∧ (fitCameraToAssembly tan pi s).controls.target =
          (box3SetFromObject m).getCenter)
    ∧ (s.currentModel = none → fitCameraToAssembly tan pi s = s) := by
  constructor
  · intro m hm
    refine ⟨?_, ?_, ?_⟩
    · simp only [fitCameraToAssembly, hm, Vec3.mk.injEq]
      refine ⟨by ring, by ring, by ring⟩
    · simp only [fitCameraToAssembly, hm]
    · simp only [fitCameraToAssembly, hm]
  · intro hm
    simp only [fitCameraToAssembly, hm]

/-- C6, witness: for a unit `tan` oracle and a model spanning (0,0,0)–(2,4,6)
the orbit-controls target lands at the box center (1,2,3). -/
theorem c6_camera_fit_witness :
    ((⟨some ⟨⟨0, 0, 0⟩, [⟨0, 0, 0⟩, ⟨2, 4, 6⟩], "assembly"⟩,
        ⟨45, ⟨5, 5, 5⟩, ⟨0, 0, 0⟩⟩, ⟨⟨0, 0, 0⟩⟩⟩ : ViewerState).currentModel =
      some ⟨⟨0, 0, 0⟩, [⟨0, 0, 0⟩, ⟨2, 4, 6⟩], "assembly"⟩)
    ∧ (fitCameraToAssembly (fun _ => 1) 3
        ⟨some ⟨⟨0, 0, 0⟩, [⟨0, 0, 0⟩, ⟨2, 4, 6⟩], "assembly"⟩,
         ⟨45, ⟨5, 5, 5⟩, ⟨0, 0, 0⟩⟩, ⟨⟨0, 0, 0⟩⟩⟩).controls.target =
      ⟨1, 2, 3⟩ := by
  refine ⟨rfl, ?_⟩
  rw [((c6_camera_fit (fun _ => 1) 3 _).1 _ rfl).2.2]
  show (box3SetFromObject ⟨⟨0, 0, 0⟩, [⟨0, 0, 0⟩, ⟨2, 4, 6⟩], "assembly"⟩).getCenter =
    ⟨1, 2, 3⟩
  simp only [box3SetFromObject, Model.worldPoints, box3FromPoints, Box3.getCenter,
    List.map_cons, List.map_nil, List.foldl_cons, List.foldl_nil,
    vmin, vmax, Vec3.add_def, Vec3.mk.injEq, min_def, max_def]
  norm_num

end CenteringTheorems

section SelectionTheorems

open Viewer MV1

/-- Every entry of `intersectObjects` is a genuine hit of a member of the
input list. -/
theorem intersectObjects_mem (hit : Obj → Option ℚ) (objs : List Obj)
    (o : Obj) (d : ℚ) (h : (o, d) ∈ intersectObjects hit objs) :
    o ∈ objs ∧ hit o = some d := by
  have hmem : (o, d) ∈ objs.filterMap (fun o => (hit o).map (fun d => (o, d))) :=
    ((List.perm_insertionSort distLE _).mem_iff).mp h
  rw [List.mem_filterMap] at hmem
  obtain ⟨a, ha, hd⟩ := hmem
  cases hhit : hit a with
  | none => rw [hhit] at hd; simp at hd
  | some e =>
    rw [hhit] at hd
    simp only [Option.map_some'] at hd
    cases hd
    exact ⟨ha, hhit⟩

/-- The head of `intersectObjects` has minimal distance among all hits. -/
theorem intersectObjects_head_min (hit : Obj → Option ℚ) (objs : List Obj)
    (o : Obj) (d : ℚ) (rest : List (Obj × ℚ))
    (h : intersectObjects hit objs = (o, d) :: rest) :
    ∀ p ∈ intersectObjects hit objs, d ≤ p.2 := by
  intro p hp
  have hs : List.Sorted distLE (intersectObjects hit objs) :=
    List.sorted_insertionSort distLE _
  rw [h] at hs hp
  rcases List.mem_cons.mp hp with hph | hpt
  · subst hph; exact le_refl _
  · exact List.rel_of_sorted_cons hs p hpt

/-- C7 (amended): the ray through the pointer is intersected with the
*visible* registered objects; with at least one hit, the nearest hit (the
head of the distance-sorted intersections, minimal among all hits and itself
a visible registered object) is selected provided its `userData` flags it as
a part; with no hit the selection popup is hidden and the selection is
cleared. -/
theorem c7_selection (hit : Obj → Option ℚ) (objects : List Obj)
    (s : SelectionState) :
    (intersectObjects hit (objects.filter (fun o => o.visible)) = [] →
      handleSelection hit objects s =
        { s with popupVisible := false, selectedObject := none })
    ∧ (∀ o d rest,
        intersectObjects hit (objects.filter (fun o => o.visible)) = (o, d) :: rest →
          (o ∈ objects ∧ o.visible = true ∧ hit o = some d)
          ∧ (∀ p ∈ intersectObjects hit (objects.filter (fun o => o.visible)), d ≤ p.2)
          ∧ (o.userData.isPart = true →
              handleSelection hit objects s =
                { selectedObject := some o, popupVisible := true })
          ∧ (o.userData.isPart = false → handleSelection hit objects s = s)) := by
  constructor
  · intro hempty
    simp only [handleSelection, hempty]
  · intro o d rest heq
    have hmem : (o, d) ∈ intersectObjects hit (objects.filter (fun o => o.visible)) := by
      rw [heq]; exact List.mem_cons_self _ _
    have hin := intersectObjects_mem hit _ o d hmem
    have hvis : o ∈ objects ∧ o.visible = true := by
      have := hin.1
      rw [List.mem_filter] at this
      exact ⟨this.1, this.2⟩
    refine ⟨⟨hvis.1, hvis.2, hin.2⟩,
            intersectObjects_head_min hit _ o d rest heq, ?_, ?_⟩
    · intro hpart
      simp only [handleSelection, heq, hpart, if_pos]
    · intro hpart
      simp only [handleSelection, heq, hpart]
      simp

/-- C7, witness: one visible part hit at distance 1 is selected and the
popup shown. -/
theorem c7_selection_witness :
    (intersectObjects (fun _ => some 1)
        ([({ name := "A", visible := true, geometry := .fromScene,
             userData := { objectName := "A", isPart := true, partId := 0 } } : Obj)].filter
          (fun o => o.visible)) =
      [(({ name := "A", visible := true, geometry := .fromScene,
           userData := { objectName := "A", isPart := true, partId := 0 } } : Obj), 1)])
    ∧ handleSelection (fun _ => some 1)
        [{ name := "A", visible := true, geometry := .fromScene,
           userData := { objectName := "A", isPart := true, partId := 0 } }]
        ⟨none, false⟩ =
      { selectedObject :=
          some { name := "A", visible := true, geometry := .fromScene,
                 userData := { objectName := "A", isPart := true, partId := 0 } },
        popupVisible := true } :=
  ⟨rfl,
   ((c7_selection (fun _ => some 1)
        [{ name := "A", visible := true, geometry := .fromScene,
           userData := { objectName := "A", isPart := true, partId := 0 } }]
        ⟨none, false⟩).2
      { name := "A", visible := true, geometry := .fromScene,
        userData := { objectName := "A", isPart := true, partId := 0 } }
      1 [] rfl).2.2.1 rfl⟩

/-- C7, counterexample to the claim as stated: with an invisible part
hit at distance 1 and a visible part hit at distance 2, the nearest hit
among *all* registered part objects is the invisible one, yet the code
selects the visible one (the code intersects only visible objects). -/
theorem c7_counterexample :
    (intersectObjects
        (fun o => if o.name = "A" then some 1 else some 2)
        [{ name := "A", visible := false, geometry := .fromScene,
           userData := { objectName := "A", isPart := true, partId := 0 } },
         { name := "B", visible := true, geometry := .fromScene,
           userData := { objectName := "B", isPart := true, partId := 1 } }] =
      [({ name := "A", visible := false, geometry := .fromScene,
          userData := { objectName := "A", isPart := true, partId := 0 } }, 1),
       ({ name := "B", visible := true, geometry := .fromScene,
          userData := { objectName := "B", isPart := true, partId := 1 } }, 2)])
    ∧ (handleSelection
        (fun o => if o.name = "A" then some 1 else some 2)
        [{ name := "A", visible := false, geometry := .fromScene,
           userData := { objectName := "A", isPart := true, partId := 0 } },
         { name := "B", visible := true, geometry := .fromScene,
           userData := { objectName := "B", isPart := true, partId := 1 } }]
        ⟨none, false⟩).selectedObject =
      some { name := "B", visible := true, geometry := .fromScene,
             userData := { objectName := "B", isPart := true, partId := 1 } }
    ∧ ({ name := "A", visible := false, geometry := .fromScene,
         userData := { objectName := "A", isPart := true, partId := 0 } } : Obj) ≠
      { name := "B", visible := true, geometry := .fromScene,
        userData := { objectName := "B", isPart := true, partId := 1 } } := by
  refine ⟨?_, ?_, by decide⟩ <;> rfl

end SelectionTheorems

section TouchTheorems

open Viewer MV1

/-- C8: a touch-end is an accepted selection tap iff it has exactly one
changed touch displaced strictly less than 10 px from the touch-start in
both axes; independently, it resets the camera (to the assembly-fit view,
`resetCamera` being `fitCameraToAssembly`) iff it comes strictly less than
300 ms after the previous touch-end; and a single-touch start schedules a
500 ms long-press timeout whose body opens the context menu exactly when a
part is selected, every touch-end cancelling the pending timeout. -/
theorem c8_touch_gestures (ct : List TouchPoint) (now : ℚ) (s : TouchState) :
    ((handleTouchEnd ct now s).tapSelection = true ↔
      ∃ t, ct = [t] ∧ |t.clientX - s.touchStartX| < 10 ∧ |t.clientY - s.touchStartY| < 10)
    ∧ ((handleTouchEnd ct now s).cameraReset = true ↔ now - s.lastTouchTime < 300)
    ∧ (∀ tan pi vs, resetCamera tan pi vs = fitCameraToAssembly tan pi vs)
    ∧ (∀ t s0, handleTouchStart [t] s0 =
        ({ s0 with touchStartX := t.clientX, touchStartY := t.clientY,
                   touchTimeoutPending := true }, some 500))
    ∧ (∀ sel : Option Obj, (touchTimeoutBody sel = true ↔ ∃ o, sel = some o))
    ∧ (handleTouchEnd ct now s).state.touchTimeoutPending = false := by
  refine ⟨?_, ?_, fun _ _ _ => rfl, fun _ _ => rfl, ?_, ?_⟩
  · cases ct with
    | nil => simp [handleTouchEnd]
    | cons t ts =>
      cases ts with
      | nil => simp [handleTouchEnd]
      | cons t2 ts2 => simp [handleTouchEnd]
  · simp [handleTouchEnd]
  · intro sel
    cases sel <;> simp [touchTimeoutBody]
  · cases ct with
    | nil => rfl
    | cons t ts => cases ts <;> rfl

/-- C8, witness: a single changed touch at (5,5) after a start at (0,0),
200 ms after the previous touch-end, is both an accepted tap and a
double-tap, and cancels the pending long-press timeout. -/
theorem c8_touch_gestures_witness :
    (handleTouchEnd [⟨5, 5⟩] 1000 ⟨0, 0, 800, true⟩).tapSelection = true
    ∧ (handleTouchEnd [⟨5, 5⟩] 1000 ⟨0, 0, 800, true⟩).cameraReset = true
    ∧ (handleTouchEnd [⟨5, 5⟩] 1000 ⟨0, 0, 800, true⟩).state.touchTimeoutPending = false :=
  ⟨(c8_touch_gestures [⟨5, 5⟩] 1000 ⟨0, 0, 800, true⟩).1.mpr
      ⟨⟨5, 5⟩, rfl, by norm_num, by norm_num⟩,
   (c8_touch_gestures [⟨5, 5⟩] 1000 ⟨0, 0, 800, true⟩).2.1.mpr (by norm_num),
   (c8_touch_gestures [⟨5, 5⟩] 1000 ⟨0, 0, 800, true⟩).2.2.2.2.2⟩

end TouchTheorems

section InvariantTheorems

open Viewer MV1

/-- The traversal-accumulator invariant: `objects` mirrors `allParts`, and
`allParts[i]` carries `partId = i` and `isPart = true`. -/
def PartsInv (s : TraverseState) : Prop :=
  s.objects = s.allParts
  ∧ ∀ i (h : i < s.allParts.length),
      (s.allParts.get ⟨i, h⟩).userData.partId = i
      ∧ (s.allParts.get ⟨i, h⟩).userData.isPart = true

/-- Pushing one element whose `partId` is the current length preserves the
indexing invariant. -/
theorem partsInv_push (l : List Obj) (m : Obj)
    (hinv : ∀ i (h : i < l.length),
        (l.get ⟨i, h⟩).userData.partId = i ∧ (l.get ⟨i, h⟩).userData.isPart = true)
    (hm1 : m.userData.partId = l.length) (hm2 : m.userData.isPart = true) :
    ∀ i (h : i < (l ++ [m]).length),
      ((l ++ [m]).get ⟨i, h⟩).userData.partId = i
      ∧ ((l ++ [m]).get ⟨i, h⟩).userData.isPart = true := by
  intro i h
  rcases Nat.lt_or_ge i l.length with hi | hi
  · have hget : (l ++ [m]).get ⟨i, h⟩ = l.get ⟨i, hi⟩ := by
      simp [List.get_eq_getElem, List.getElem_append_left hi]
    rw [hget]
    exact hinv i hi
  · have hieq : i = l.length := by
      have : i < l.length + 1 := by simpa using h
      omega
    subst hieq
    have hget : (l ++ [m]).get ⟨l.length, h⟩ = m := by
      simp [List.get_eq_getElem]
    rw [hget]
    exact ⟨hm1, hm2⟩

theorem traverseChild_preserves (s : TraverseState) (c : SceneNode)
    (hs : PartsInv s) : PartsInv (traverseChild s c) := by
  obtain ⟨hobj, hinv⟩ := hs
  unfold traverseChild
  dsimp only
  split
  · split
    · exact ⟨hobj, hinv⟩
    · exact ⟨by rw [hobj], partsInv_push s.allParts _ hinv rfl rfl⟩
  · exact ⟨hobj, hinv⟩

theorem foldl_traverseChild_preserves (nodes : List SceneNode)
    (s : TraverseState) (hs : PartsInv s) :
    PartsInv (nodes.foldl traverseChild s) := by
  induction nodes generalizing s with
  | nil => exact hs
  | cons c rest ih =>
    exact ih (traverseChild s c) (traverseChild_preserves s c hs)

/-- C9: after every load — scene traversal or generated placeholder — each
collected part's `userData` has `partId` equal to its index in `allParts`
and `isPart = true`, and the raycast `objects` array equals `allParts`
elementwise in order. -/
theorem c9_parts_invariant :
    (∀ nodes : List SceneNode, PartsInv (collectParts nodes))
    ∧ PartsInv createFallbackAssembly := by
  constructor
  · intro nodes
    exact foldl_traverseChild_preserves nodes ⟨0, [], []⟩
      ⟨rfl, fun i h => absurd h (by simp)⟩
  · constructor
    · rfl
    · intro i h
      have hlen : i < 6 := by
        simpa [createFallbackAssembly, fallbackPartsData] using h
      interval_cases i <;> exact ⟨rfl, rfl⟩

/-- C9, witness: for a two-mesh scene the second collected part has
`partId = 1` and `isPart`, and for the placeholder the first part has
`partId = 0`. -/
theorem c9_parts_invariant_witness :
    ((collectParts [⟨true, "a", none⟩, ⟨true, "b", none⟩]).allParts.length = 2)
    ∧ (∀ h : 1 < (collectParts [⟨true, "a", none⟩, ⟨true, "b", none⟩]).allParts.length,
        ((collectParts [⟨true, "a", none⟩, ⟨true, "b", none⟩]).allParts.get
            ⟨1, h⟩).userData.partId = 1)
    ∧ (collectParts [⟨true, "a", none⟩, ⟨true, "b", none⟩]).objects =
        (collectParts [⟨true, "a", none⟩, ⟨true, "b", none⟩]).allParts :=
  ⟨rfl,
   fun h => ((c9_parts_invariant.1 [⟨true, "a", none⟩, ⟨true, "b", none⟩]).2 1 h).1,
   (c9_parts_invariant.1 [⟨true, "a", none⟩, ⟨true, "b", none⟩]).1⟩

end InvariantTheorems

section FallbackTheorems

open Viewer MV1

theorem foldl_traverseChild_nonmesh (nodes : List SceneNode)
    (s : TraverseState) (h : ∀ n ∈ nodes, n.isMesh = false) :
    nodes.foldl traverseChild s = s := by
  induction nodes generalizing s with
  | nil => rfl
  | cons c rest ih =>
    have hc : c.isMesh = false := h c (List.mem_cons_self _ _)
    have hstep : traverseChild s c = s := by
      unfold traverseChild
      simp [hc]
    rw [List.foldl_cons, hstep]
    exact ih s (fun n hn => h n (List.mem_cons_of_mem _ hn))

/-- C4, counterexample to the claim as stated: a scene with zero mesh nodes
is *not* kept as a successful empty load — the handler substitutes the
generated placeholder, so `usedFallback` is set and the parts list is the
six placeholder parts rather than empty. -/
theorem c4_counterexample :
    (processLoadedScene []).usedFallback = true
    ∧ (processLoadedScene []).allParts ≠ []
    ∧ (processLoadedScene []).allParts.length = 6 :=
  ⟨rfl, by decide, rfl⟩

/-- C4 (amended): a loaded scene file containing zero mesh nodes does not
complete as a successful load with an empty parts list; instead the loader
substitutes the generated placeholder assembly (the six hardcoded parts),
and the parts-list UI's zero-parts label (`Деталей: 0`) is produced only
for an empty `allParts` array. -/
theorem c4_zero_mesh_fallback (nodes : List SceneNode)
    (h : ∀ n ∈ nodes, n.isMesh = false) :
    (processLoadedScene nodes).usedFallback = true
    ∧ (processLoadedScene nodes).allParts = createFallbackAssembly.allParts
    ∧ (processLoadedScene nodes).allParts.length = 6
    ∧ updatePartsListCountText [] = "Деталей: 0"
    ∧ updatePartsListCountText (processLoadedScene nodes).allParts = "Деталей: 6" := by
  have hcollect : collectParts nodes = ⟨0, [], []⟩ :=
    foldl_traverseChild_nonmesh nodes ⟨0, [], []⟩ h
  unfold processLoadedScene
  rw [hcollect]
  exact ⟨rfl, rfl, rfl, rfl, rfl⟩

/-- C4, witness: a scene holding a single non-mesh node (a group) triggers
the placeholder substitution. -/
theorem c4_zero_mesh_fallback_witness :
    (∀ n ∈ [(⟨false, "group", none⟩ : SceneNode)], n.isMesh = false)
    ∧ (processLoadedScene [⟨false, "group", none⟩]).usedFallback = true :=
  ⟨by decide, (c4_zero_mesh_fallback [⟨false, "group", none⟩] (by decide)).1⟩

end FallbackTheorems

section CandidatePathTheorems

open Viewer

theorem jsSplit_ne_nil (sep : Char) (l : List Char) : MV2.jsSplit sep l ≠ [] := by
  cases l with
  | nil => simp [MV2.jsSplit]
  | cons c cs =>
    rcases h : MV2.jsSplit sep cs with _ | ⟨h1, t1⟩ <;>
      by_cases hc : c = sep <;>
        simp [MV2.jsSplit, h, hc]

/-- For a pathname starting with `/`, the directory part computed by
`split('/').slice(0,-1).join('/')` is either empty or itself starts
with `/`. -/
theorem dirOfPathname_head (p : String) (cs : List Char)
    (hp : p.data = '/' :: cs) :
    (MV2.dirOfPathname p).data = []
    ∨ ∃ r, (MV2.dirOfPathname p).data = '/' :: r := by
  show (MV2.joinChar '/' ((MV2.jsSplit '/' p.data).dropLast)) = []
    ∨ ∃ r, (MV2.joinChar '/' ((MV2.jsSplit '/' p.data).dropLast)) = '/' :: r
  rw [hp]
  rw [show MV2.jsSplit '/' ('/' :: cs) = [] :: MV2.jsSplit '/' cs by
    simp [MV2.jsSplit]]
  rcases hr : MV2.jsSplit '/' cs with _ | ⟨b, t⟩
  · exact absurd hr (jsSplit_ne_nil '/' cs)
  · rw [List.dropLast_cons₂]
    rcases hd : (b :: t).dropLast with _ | ⟨u, v⟩
    · left
      rfl
    · right
      exact ⟨MV2.joinChar '/' (u :: v), rfl⟩

theorem firstPath_head (n : String) :
    ("models/" ++ n ++ ".glb").data.head? = some 'm' := by
  rw [show ("models/" ++ n ++ ".glb" : String).data =
      ("models/" : String).data ++ n.data ++ (".glb" : String).data by
    simp [String.data_append]]
  rw [show ("models/" : String).data = 'm' :: ("odels/" : String).data from rfl]
  simp

theorem secondPath_head (n : String) :
    ("./models/" ++ n ++ ".glb").data.head? = some '.' := by
  rw [show ("./models/" ++ n ++ ".glb" : String).data =
      ("./models/" : String).data ++ n.data ++ (".glb" : String).data by
    simp [String.data_append]]
  rw [show ("./models/" : String).data = '.' :: ("/models/" : String).data from rfl]
  simp

theorem thirdPath_head (pfx n : String)
    (h : pfx.data = [] ∨ ∃ r, pfx.data = '/' :: r) :
    (pfx ++ "/models/" ++ n ++ ".glb").data.head? = some '/' := by
  rw [show (pfx ++ "/models/" ++ n ++ ".glb" : String).data =
      pfx.data ++ ("/models/" : String).data ++ n.data ++ (".glb" : String).data by
    simp [String.data_append]]
  rw [show ("/models/" : String).data = '/' :: ("models/" : String).data from rfl]
  rcases h with h | ⟨r, h⟩ <;> simp [h]

theorem ne_of_data_head (s t : String)
    (h : s.data.head? ≠ t.data.head?) : s ≠ t := by
  intro he
  exact h (by rw [he])

/-- For a browser pathname (which always starts with `/`), the three
candidate paths are pairwise distinct. -/
theorem possiblePaths_nodup (assemblyName pathname : String) (cs : List Char)
    (hp : pathname.data = '/' :: cs) :
    (MV2.possiblePaths assemblyName pathname).Nodup := by
  have h3 : ((if MV2.strIncludes pathname.data ("github.io" : String).data then
        MV2.dirOfPathname pathname else "") ++ "/models/" ++ assemblyName ++
        ".glb").data.head? = some '/' := by
    apply thirdPath_head
    split
    · exact dirOfPathname_head pathname cs hp
    · left
      rfl
  have h12 : ("models/" ++ assemblyName ++ ".glb" : String) ≠
      "./models/" ++ assemblyName ++ ".glb" := by
    apply ne_of_data_head
    rw [firstPath_head, secondPath_head]
    decide
  have h13 : ("models/" ++ assemblyName ++ ".glb" : String) ≠
      (if MV2.strIncludes pathname.data ("github.io" : String).data then
        MV2.dirOfPathname pathname else "") ++ "/models/" ++ assemblyName ++ ".glb" := by
    apply ne_of_data_head
    rw [firstPath_head, h3]
    decide
  have h23 : ("./models/" ++ assemblyName ++ ".glb" : String) ≠
      (if MV2.strIncludes pathname.data ("github.io" : String).data then
        MV2.dirOfPathname pathname else "") ++ "/models/" ++ assemblyName ++ ".glb" := by
    apply ne_of_data_head
    rw [secondPath_head, h3]
    decide
  unfold MV2.possiblePaths
  refine List.nodup_cons.mpr ⟨?_, List.nodup_cons.mpr ⟨?_, List.nodup_singleton _⟩⟩
  · intro hmem
    rcases List.mem_cons.mp hmem with he | hmem2
    · exact h12 he
    · exact h13 (List.mem_singleton.mp hmem2)
  · intro hmem
    exact h23 (List.mem_singleton.mp hmem)

/-- When the loader fails on every path, the loop attempts each path in
order and reports no scene. -/
theorem tryLoadPaths_all_none (load : String → Option MV2.GltfScene)
    (paths : List String) (h : ∀ p ∈ paths, load p = none) :
    MV2.tryLoadPaths load paths = (none, paths) := by
  induction paths with
  | nil => rfl
  | cons p rest ih =>
    have hp : load p = none := h p (List.mem_cons_self _ _)
    have hrest := ih (fun q hq => h q (List.mem_cons_of_mem _ hq))
    simp [MV2.tryLoadPaths, hp, hrest]

/-- C3: when every candidate path fails to load, the viewer renders the
error message, substitutes the generated placeholder assembly (the four
hardcoded box-shaped parts), and has attempted exactly the short static
3-element candidate list, each path at most once, with no retry. -/
theorem c3_all_paths_fail (load : String → Option MV2.GltfScene)
    (pathname assemblyName : String) (cs : List Char)
    (hp : pathname.data = '/' :: cs)
    (hfail : ∀ p ∈ MV2.possiblePaths assemblyName pathname, load p = none) :
    (MV2.loadAssembly load pathname assemblyName).errorShown = true
    ∧ (MV2.loadAssembly load pathname assemblyName).usedFallback = true
    ∧ (MV2.loadAssembly load pathname assemblyName).allParts =
        MV2.createFallbackAssembly
    ∧ MV2.createFallbackAssembly.map (fun o => o.geometry) =
        [.box ⟨3, 2, 1⟩, .box ⟨2.8, 0.3, 0.9⟩, .box ⟨0.2, 1, 0.2⟩, .box ⟨1, 0.3, 1⟩]
    ∧ (MV2.loadAssembly load pathname assemblyName).attemptedPaths =
        MV2.possiblePaths assemblyName pathname
    ∧ (MV2.possiblePaths assemblyName pathname).length = 3
    ∧ (∀ p, (MV2.loadAssembly load pathname assemblyName).attemptedPaths.count p ≤ 1) := by
  have htry := tryLoadPaths_all_none load (MV2.possiblePaths assemblyName pathname) hfail
  have hout : MV2.loadAssembly load pathname assemblyName =
      { allParts := MV2.createFallbackAssembly,
        usedFallback := true,
        errorShown := true,
        attemptedPaths := MV2.possiblePaths assemblyName pathname } := by
    unfold MV2.loadAssembly
    dsimp only
    rw [htry]
  rw [hout]
  refine ⟨rfl, rfl, rfl, rfl, rfl, rfl, ?_⟩
  exact List.nodup_iff_count_le_one.mp
    (possiblePaths_nodup assemblyName pathname cs hp)

/-- C3, witness: with a loader that fails everywhere and the pathname
`/parts-catalog-3d/index.html`, the placeholder is substituted after
attempting the three distinct candidate paths. -/
theorem c3_all_paths_fail_witness :
    (("/parts-catalog-3d/index.html" : String).data =
      '/' :: ("parts-catalog-3d/index.html" : String).data)
    ∧ (∀ p ∈ MV2.possiblePaths "assembly" "/parts-catalog-3d/index.html",
        (fun _ => (none : Option MV2.GltfScene)) p = none)
    ∧ (MV2.loadAssembly (fun _ => none) "/parts-catalog-3d/index.html"
        "assembly").usedFallback = true
    ∧ (MV2.loadAssembly (fun _ => none) "/parts-catalog-3d/index.html"
        "assembly").attemptedPaths.length = 3 := by
  refine ⟨rfl, fun p _ => rfl, ?_, ?_⟩
  · exact (c3_all_paths_fail (fun _ => none) "/parts-catalog-3d/index.html"
      "assembly" ("parts-catalog-3d/index.html" : String).data rfl
      (fun p _ => rfl)).2.1
  · rw [(c3_all_paths_fail (fun _ => none) "/parts-catalog-3d/index.html"
      "assembly" ("parts-catalog-3d/index.html" : String).data rfl
      (fun p _ => rfl)).2.2.2.2.1]
    rfl

end CandidatePathTheorems
